import Mathlib

/-!
Verification of the Fabric AI Gateway protocol/session layer.

The definitions below are a shallow embedding of the Python sources:
`src/context_manager.py`, `src/mcp_server.py`, `src/warehouse_adapter.py`,
`src/semantic_adapter.py`, `src/utils/tmsl_generator.py` and
`src/utils/xmla_client.py`.  Strings are Lean `String`s; Python string
methods (`strip`, `upper`, `lower`, `startswith`, the `in` substring test)
are translated as small executable helpers; raised exceptions become
`Except`; network transports become explicit function parameters together
with an explicit log of what was sent over them.
-/

namespace Fabric

/-! ## Python string primitives -/

/-- Python's substring test `needle in hay`, on character lists:
`True` when `needle` occurs contiguously inside `hay` (the empty needle
occurs in every string). -/
def listHasSub (needle : List Char) : List Char → Bool
  | [] => needle.isEmpty
  | c :: t => needle.isPrefixOf (c :: t) || listHasSub needle t

/-- Python's `needle in hay` on strings. -/
def pyIn (needle hay : String) : Bool :=
  listHasSub needle.data hay.data

/-- Python's `str.strip()` (whitespace at both ends). -/
def pyStrip (s : String) : String :=
  .mk (((s.data.dropWhile Char.isWhitespace).reverse.dropWhile
    Char.isWhitespace).reverse)

/-- Python's `str.upper()` (on the ASCII strings this code base handles). -/
def pyUpper (s : String) : String := .mk (s.data.map Char.toUpper)

/-- Python's `str.lower()` (on the ASCII strings this code base handles). -/
def pyLower (s : String) : String := .mk (s.data.map Char.toLower)

/-- Python's `str.startswith(p)`. -/
def pyStartswith (s p : String) : Bool := p.data.isPrefixOf s.data

/-- Python truthiness of an optional string (`if x:`): `None` and the
empty string are falsy. -/
def pyTruthyStr : Option String → Bool
  | none => false
  | some s => !(s == "")

/-! ## `src/context_manager.py` -/

/-- `ConnectionMode` enum from `context_manager.py`. -/
inductive ConnectionMode
  | NONE
  | SEMANTIC_MODEL
  | DATA_WAREHOUSE
deriving DecidableEq, Repr

/-- One entry of the `tables` list handed to `update_semantic_schema`:
a dict that may or may not carry a `"columns"` key (the remaining keys
are irrelevant to the manager, which only rewrites `"columns"`). -/
structure TableDict where
  name : String
  columns : Option (List String)
deriving DecidableEq, Repr

/-- `SemanticModelContext` dataclass. -/
structure SemanticModelContext where
  workspace_id : String
  workspace_name : String
  model_id : String
  model_name : String
  schema_loaded : Bool := false
  tables : List TableDict := []
  measures : List String := []
  relationships : List String := []
deriving DecidableEq, Repr

/-- `WarehouseContext` dataclass. -/
structure WarehouseContext where
  sql_endpoint : String
  database_name : Option String := none
  schemas : List String := []
  tables_overview : List TableDict := []
deriving DecidableEq, Repr

/-- `Limits` dataclass (defaults from `context_manager.py`). -/
structure Limits where
  max_dax_rows : Nat := 1000
  max_tables_in_context : Nat := 50
  max_columns_per_table : Nat := 100
  sample_rows : Nat := 10
  max_sql_result_rows : Nat := 500
deriving DecidableEq, Repr

/-- The mutable state of a `ContextManager` instance (its `limits`,
`mode`, `semantic_context`, `warehouse_context` attributes). -/
structure ContextManager where
  limits : Limits
  mode : ConnectionMode
  semantic_context : Option SemanticModelContext
  warehouse_context : Option WarehouseContext
deriving DecidableEq, Repr

/-- `ContextManager.__init__`: mode `NONE`, both contexts `None`. -/
def ContextManager.init (limits : Limits) : ContextManager :=
  { limits := limits
    mode := .NONE
    semantic_context := none
    warehouse_context := none }

/-- `ContextManager.set_semantic_model`. -/
def ContextManager.set_semantic_model (cm : ContextManager)
    (workspace_id workspace_name model_id model_name : String) : ContextManager :=
  { cm with
    mode := .SEMANTIC_MODEL
    warehouse_context := none
    semantic_context := some
      { workspace_id := workspace_id
        workspace_name := workspace_name
        model_id := model_id
        model_name := model_name } }

/-- `ContextManager.set_warehouse`. -/
def ContextManager.set_warehouse (cm : ContextManager)
    (sql_endpoint : String) (database_name : Option String) : ContextManager :=
  { cm with
    mode := .DATA_WAREHOUSE
    semantic_context := none
    warehouse_context := some
      { sql_endpoint := sql_endpoint
        database_name := database_name } }

/-- `ContextManager.clear`. -/
def ContextManager.clear (cm : ContextManager) : ContextManager :=
  { cm with
    mode := .NONE
    semantic_context := none
    warehouse_context := none }

/-- The per-table column truncation done inside `update_semantic_schema`:
`if "columns" in table: table["columns"] = table["columns"][:max]`. -/
def truncColumns (maxCols : Nat) (t : TableDict) : TableDict :=
  { t with columns := t.columns.map (List.take maxCols) }

/-- `ContextManager.update_semantic_schema`.  Raising `ValueError` is
modelled as `Except.error` with the exception message. -/
def ContextManager.update_semantic_schema (cm : ContextManager)
    (tables : List TableDict) (measures relationships : List String) :
    Except String ContextManager :=
  match cm.semantic_context with
  | none => .error "No semantic model connected"
  | some sc =>
    let tables := (tables.take cm.limits.max_tables_in_context).map
      (truncColumns cm.limits.max_columns_per_table)
    .ok { cm with
          semantic_context := some
            { sc with
              tables := tables
              measures := measures
              relationships := relationships
              schema_loaded := true } }

/-- `ContextManager.update_warehouse_overview`. -/
def ContextManager.update_warehouse_overview (cm : ContextManager)
    (schemas : List String) (tables_overview : List TableDict) :
    Except String ContextManager :=
  match cm.warehouse_context with
  | none => .error "No warehouse connected"
  | some wc =>
    let tables_overview := tables_overview.take cm.limits.max_tables_in_context
    .ok { cm with
          warehouse_context := some
            { wc with
              schemas := schemas
              tables_overview := tables_overview } }

/-- The three state-machine operations the mutual-exclusion claim
quantifies over. -/
inductive CtxOp
  | setSemanticModel (workspace_id workspace_name model_id model_name : String)
  | setWarehouse (sql_endpoint : String) (database_name : Option String)
  | clear
deriving DecidableEq, Repr

/-- Apply a single operation to the manager state. -/
def applyCtxOp (cm : ContextManager) : CtxOp → ContextManager
  | .setSemanticModel wid wname mid mname => cm.set_semantic_model wid wname mid mname
  | .setWarehouse ep db => cm.set_warehouse ep db
  | .clear => cm.clear

/-- Apply a sequence of operations, left to right. -/
def applyCtxOps (cm : ContextManager) (ops : List CtxOp) : ContextManager :=
  ops.foldl applyCtxOp cm

/-- At most one of the two backend contexts is populated. -/
def mutuallyExclusive (cm : ContextManager) : Prop :=
  cm.semantic_context = none ∨ cm.warehouse_context = none

/-- C1: mutual exclusivity of backend contexts.  For every sequence of
`set_semantic_model` / `set_warehouse` / `clear` operations applied to a
freshly initialized `ContextManager`, at most one of `semantic_context`
and `warehouse_context` is non-null; `set_semantic_model` sets the mode
to `SEMANTIC_MODEL` and nulls the warehouse context, `set_warehouse`
sets the mode to `DATA_WAREHOUSE` and nulls the semantic context, and
`clear` resets the mode to `NONE` with both contexts null. -/
theorem context_backend_mutual_exclusion :
    (∀ (limits : Limits) (ops : List CtxOp),
       mutuallyExclusive (applyCtxOps (ContextManager.init limits) ops))
    ∧ (∀ (cm : ContextManager) (wid wname mid mname : String),
        (cm.set_semantic_model wid wname mid mname).mode = .SEMANTIC_MODEL
        ∧ (cm.set_semantic_model wid wname mid mname).warehouse_context = none)
    ∧ (∀ (cm : ContextManager) (ep : String) (db : Option String),
        (cm.set_warehouse ep db).mode = .DATA_WAREHOUSE
        ∧ (cm.set_warehouse ep db).semantic_context = none)
    ∧ (∀ cm : ContextManager,
        cm.clear.mode = .NONE ∧ cm.clear.semantic_context = none
        ∧ cm.clear.warehouse_context = none) := by
  refine ⟨?_, ?_, ?_, ?_⟩
  · intro limits ops
    have key : ∀ (ops : List CtxOp) (cm : ContextManager), mutuallyExclusive cm →
        mutuallyExclusive (applyCtxOps cm ops) := by
      intro ops
      induction ops with
      | nil => intro cm h; exact h
      | cons op rest ih =>
        intro cm h
        have hstep : mutuallyExclusive (applyCtxOp cm op) := by
          cases op with
          | setSemanticModel wid wname mid mname =>
            exact Or.inr rfl
          | setWarehouse ep db =>
            exact Or.inl rfl
          | clear =>
            exact Or.inl rfl
        exact ih (applyCtxOp cm op) hstep
    exact key ops _ (Or.inl rfl)
  · intro cm wid wname mid mname
    exact ⟨rfl, rfl⟩
  · intro cm ep db
    exact ⟨rfl, rfl⟩
  · intro cm
    exact ⟨rfl, rfl, rfl⟩

/-- C7: schema truncation semantics.  With a semantic context present,
`update_semantic_schema` stores exactly the first
`min (length tables) max_tables_in_context` tables in their original
input order, each with its column list truncated to the first
`max_columns_per_table` entries, stores the measures and relationships
verbatim, and sets `schema_loaded`; with no semantic context it raises
`ValueError` and returns no new state. -/
theorem update_semantic_schema_truncation (cm : ContextManager)
    (tables : List TableDict) (measures relationships : List String) :
    (∀ sc, cm.semantic_context = some sc →
      ∃ sc',
        cm.update_semantic_schema tables measures relationships =
          .ok { cm with semantic_context := some sc' } ∧
        sc'.tables.length = min tables.length cm.limits.max_tables_in_context ∧
        (∀ (i : Nat) (h1 : i < sc'.tables.length) (h2 : i < tables.length),
           sc'.tables.get ⟨i, h1⟩ =
             truncColumns cm.limits.max_columns_per_table (tables.get ⟨i, h2⟩)) ∧
        sc'.measures = measures ∧
        sc'.relationships = relationships ∧
        sc'.schema_loaded = true) ∧
    (cm.semantic_context = none →
      cm.update_semantic_schema tables measures relationships =
        .error "No semantic model connected") := by
  constructor
  · intro sc hsc
    refine ⟨{ sc with
              tables := (tables.take cm.limits.max_tables_in_context).map
                (truncColumns cm.limits.max_columns_per_table)
              measures := measures
              relationships := relationships
              schema_loaded := true }, ?_, ?_, ?_, rfl, rfl, rfl⟩
    · simp only [ContextManager.update_semantic_schema, hsc]
    · simp [Nat.min_comm]
    · intro i h1 h2
      simp [List.get_eq_getElem, List.getElem_map, List.getElem_take]
  · intro hnone
    simp only [ContextManager.update_semantic_schema, hnone]

/-- Example limits: all defaults from `context_manager.py`
(`max_tables_in_context = 50`, `max_columns_per_table = 100`). -/
def exLimits : Limits := {}

/-- A manager connected to a semantic model. -/
def exCM : ContextManager :=
  (ContextManager.init exLimits).set_semantic_model "ws-id" "Ws" "mdl-id" "Mdl"

/-- The semantic context held by `exCM`. -/
def exSC : SemanticModelContext :=
  { workspace_id := "ws-id", workspace_name := "Ws"
    model_id := "mdl-id", model_name := "Mdl" }

/-- 80 input tables, named by their position. -/
def exTables : List TableDict :=
  (List.range 80).map fun i => { name := toString i, columns := none }

theorem update_semantic_schema_truncation_witness :
    exCM.semantic_context = some exSC ∧
    (∃ sc',
        exCM.update_semantic_schema exTables [] [] =
          .ok { exCM with semantic_context := some sc' } ∧
        sc'.tables.length = min exTables.length exCM.limits.max_tables_in_context ∧
        (∀ (i : Nat) (h1 : i < sc'.tables.length) (h2 : i < exTables.length),
           sc'.tables.get ⟨i, h1⟩ =
             truncColumns exCM.limits.max_columns_per_table (exTables.get ⟨i, h2⟩)) ∧
        sc'.measures = ([] : List String) ∧
        sc'.relationships = ([] : List String) ∧
        sc'.schema_loaded = true) ∧
    (ContextManager.init exLimits).semantic_context = none ∧
    (ContextManager.init exLimits).update_semantic_schema exTables [] [] =
      .error "No semantic model connected" :=
  ⟨rfl,
   (update_semantic_schema_truncation exCM exTables [] []).1 exSC rfl,
   rfl,
   (update_semantic_schema_truncation (ContextManager.init exLimits) exTables [] []).2 rfl⟩

/-! ## `src/utils/tmsl_generator.py` -/

/-- The `measure_def` dict built by `generate_measure_upsert`:
optional keys are present only when the corresponding argument is
truthy (`if description: ...`). -/
structure MeasureDef where
  name : String
  expression : String
  description : Option String := none
  formatString : Option String := none
  displayFolder : Option String := none
deriving DecidableEq, Repr

/-- The structured TMSL command dicts produced by the generator
(`json.dumps` serialization elided; the dict structure is modelled). -/
inductive TmslCommand
  | createOrReplaceMeasure (database table measure : String) (payload : MeasureDef)
  | alterMeasure (database measure : String) (payload : MeasureDef)
  | deleteMeasure (database : String) (table : Option String) (measure : String)
deriving DecidableEq, Repr

/-- The `object.database` field of a generated command. -/
def TmslCommand.database : TmslCommand → String
  | .createOrReplaceMeasure db _ _ _ => db
  | .alterMeasure db _ _ => db
  | .deleteMeasure db _ _ => db

/-- The `object.table` field of a generated command, when present. -/
def TmslCommand.tableTarget : TmslCommand → Option String
  | .createOrReplaceMeasure _ t _ _ => some t
  | .alterMeasure _ _ _ => none
  | .deleteMeasure _ t _ => t

/-- The `object.measure` field of a generated command. -/
def TmslCommand.measureTarget : TmslCommand → String
  | .createOrReplaceMeasure _ _ m _ => m
  | .alterMeasure _ m _ => m
  | .deleteMeasure _ _ m => m

/-- The payload `expression` of a generated command, when present. -/
def TmslCommand.expressionOf : TmslCommand → Option String
  | .createOrReplaceMeasure _ _ _ p => some p.expression
  | .alterMeasure _ _ p => some p.expression
  | .deleteMeasure _ _ _ => none

/-- Whether the command is a `createOrReplace`. -/
def TmslCommand.isCreateOrReplace : TmslCommand → Bool
  | .createOrReplaceMeasure _ _ _ _ => true
  | _ => false

/-- `generate_measure_upsert` from `tmsl_generator.py`. -/
def generate_measure_upsert (name formula : String)
    (table description format_string display_folder : Option String) :
    TmslCommand :=
  let measure_def : MeasureDef :=
    { name := name
      expression := formula
      description := if pyTruthyStr description then description else none
      formatString := if pyTruthyStr format_string then format_string else none
      displayFolder := if pyTruthyStr display_folder then display_folder else none }
  if pyTruthyStr table then
    .createOrReplaceMeasure "<database>" (table.getD "") name measure_def
  else
    .alterMeasure "<database>" name measure_def

/-- `generate_measure_delete` from `tmsl_generator.py`. -/
def generate_measure_delete (name : String) (table : Option String) : TmslCommand :=
  .deleteMeasure "<database>" (if pyTruthyStr table then table else none) name

/-- C9 counterexample: an input that does pass a `table` argument (the
empty string) for which the generator produces an `alter` command, not
a `createOrReplace` (Python's `if table:` treats `""` as absent). -/
theorem generate_measure_upsert_empty_table_counterexample :
    (generate_measure_upsert "Total Sales" "SUM(Sales[Amount])"
        (some "") none none none).isCreateOrReplace = false := by
  decide

/-- C9 (amended): for every input with a non-empty `table` argument the
generator produces a `createOrReplace` command whose target table is the
given table, whose target measure is `name`, whose payload expression is
the formula and whose `database` field is the literal placeholder
`"<database>"`; with a missing or empty table it produces an `alter`
command instead; and on every input whatsoever the `database` field is
the unresolved placeholder `"<database>"`. -/
theorem generate_measure_upsert_placeholder :
    (∀ (name formula table : String)
       (description format_string display_folder : Option String),
       table ≠ "" →
       (generate_measure_upsert name formula (some table)
           description format_string display_folder).isCreateOrReplace = true ∧
       (generate_measure_upsert name formula (some table)
           description format_string display_folder).database = "<database>" ∧
       (generate_measure_upsert name formula (some table)
           description format_string display_folder).tableTarget = some table ∧
       (generate_measure_upsert name formula (some table)
           description format_string display_folder).measureTarget = name ∧
       (generate_measure_upsert name formula (some table)
           description format_string display_folder).expressionOf = some formula) ∧
    (∀ (name formula : String)
       (table description format_string display_folder : Option String),
       (generate_measure_upsert name formula table
           description format_string display_folder).database = "<database>") := by
  constructor
  · intro name formula table description format_string display_folder htable
    have ht : pyTruthyStr (some table) = true := by
      simp [pyTruthyStr, htable]
    refine ⟨?_, ?_, ?_, ?_, ?_⟩ <;>
      simp [generate_measure_upsert, ht, TmslCommand.isCreateOrReplace,
        TmslCommand.database, TmslCommand.tableTarget,
        TmslCommand.measureTarget, TmslCommand.expressionOf]
  · intro name formula table description format_string display_folder
    by_cases ht : pyTruthyStr table = true <;>
      simp [generate_measure_upsert, ht, TmslCommand.database]

theorem generate_measure_upsert_placeholder_witness :
    ("Sales" : String) ≠ "" ∧
    (generate_measure_upsert "Total Sales" "SUM(Sales[Amount])" (some "Sales")
        none none none).isCreateOrReplace = true ∧
    (generate_measure_upsert "Total Sales" "SUM(Sales[Amount])" (some "Sales")
        none none none).database = "<database>" ∧
    (generate_measure_upsert "Total Sales" "SUM(Sales[Amount])" (some "Sales")
        none none none).tableTarget = some "Sales" ∧
    (generate_measure_upsert "Total Sales" "SUM(Sales[Amount])" (some "Sales")
        none none none).measureTarget = "Total Sales" ∧
    (generate_measure_upsert "Total Sales" "SUM(Sales[Amount])" (some "Sales")
        none none none).expressionOf = some "SUM(Sales[Amount])" :=
  ⟨by decide,
   generate_measure_upsert_placeholder.1 "Total Sales" "SUM(Sales[Amount])"
     "Sales" none none none (by decide)⟩

/-! ## `src/utils/xmla_client.py` -/

/-- The result dict returned by `XMLAClient.execute_tmsl`. -/
structure TmslExecResult where
  status : String
  message : Option String := none
  details : Option String := none
  raw_response : Option String := none
deriving DecidableEq, Repr

/-- The response-classification tail of `XMLAClient.execute_tmsl`
(lines 234-240): scans the HTTP response body for success/error
markers, as a function of the body text. -/
def execute_tmsl_classify (body : String) : TmslExecResult :=
  if pyIn "success" (pyLower body) then
    { status := "success", message := some "TMSL command executed successfully" }
  else if pyIn "error" (pyLower body) then
    { status := "error", message := some "TMSL command failed", details := some body }
  else
    { status := "unknown", raw_response := some body }

/-- C10: classifier precedence.  The classifier answers `"success"`
whenever the lowercased body contains `"success"` (even alongside
`"error"`); it answers `"error"` with the body as details exactly when
the body contains `"error"` but not `"success"`; and it answers
`"unknown"` carrying the raw body when neither marker occurs. -/
theorem execute_tmsl_classifier_precedence (body : String) :
    (pyIn "success" (pyLower body) = true →
       (execute_tmsl_classify body).status = "success") ∧
    ((execute_tmsl_classify body).status = "error" ↔
       (pyIn "error" (pyLower body) = true ∧
        pyIn "success" (pyLower body) = false)) ∧
    (pyIn "error" (pyLower body) = true →
     pyIn "success" (pyLower body) = false →
       (execute_tmsl_classify body).details = some body) ∧
    (pyIn "success" (pyLower body) = false →
     pyIn "error" (pyLower body) = false →
       (execute_tmsl_classify body).status = "unknown" ∧
       (execute_tmsl_classify body).raw_response = some body) := by
  by_cases hs : pyIn "success" (pyLower body) = true <;>
    by_cases he : pyIn "error" (pyLower body) = true <;>
    simp_all [execute_tmsl_classify]

theorem execute_tmsl_classifier_precedence_witness :
    (pyIn "success" (pyLower "<r>Error then Success</r>") = true ∧
     (execute_tmsl_classify "<r>Error then Success</r>").status = "success") ∧
    ((execute_tmsl_classify "stream error 42").status = "error" ∧
     (execute_tmsl_classify "stream error 42").details = some "stream error 42") ∧
    ((execute_tmsl_classify "done").status = "unknown" ∧
     (execute_tmsl_classify "done").raw_response = some "done") :=
  ⟨⟨by decide,
    (execute_tmsl_classifier_precedence "<r>Error then Success</r>").1 (by decide)⟩,
   ⟨((execute_tmsl_classifier_precedence "stream error 42").2.1).mpr
      ⟨by decide, by decide⟩,
    (execute_tmsl_classifier_precedence "stream error 42").2.2.1
      (by decide) (by decide)⟩,
   (execute_tmsl_classifier_precedence "done").2.2.2 (by decide) (by decide)⟩

/-- Python's `hay.replace(pat, rep)` on character lists (all
occurrences, scanning left to right; an empty pattern leaves the list
unchanged, a case that never arises in this code base). -/
def listReplace (pat rep : List Char) (l : List Char) : List Char :=
  match l with
  | [] => []
  | c :: t =>
    if pat ≠ [] ∧ pat.isPrefixOf (c :: t) then
      rep ++ listReplace pat rep ((c :: t).drop pat.length)
    else
      c :: listReplace pat rep t
termination_by l.length
decreasing_by
  · rename_i h
    obtain ⟨hne, -⟩ := h
    have h1 : 1 ≤ pat.length := by
      cases pat with
      | nil => exact absurd rfl hne
      | cons p ps => exact Nat.succ_le_succ (Nat.zero_le _)
    simp only [List.length_drop, List.length_cons]
    omega
  · simp only [List.length_cons]
    omega

/-- Python's `hay.replace(pat, rep)` on strings. -/
def pyReplace (hay pat rep : String) : String :=
  .mk (listReplace pat.data rep.data hay.data)

/-! ## `src/warehouse_adapter.py` -/

/-- The textual SQL denylist of `WarehouseAdapter.execute_sql`. -/
def dangerous : List String :=
  ["INSERT", "UPDATE", "DELETE", "DROP", "TRUNCATE", "ALTER", "CREATE", "EXEC"]

namespace WarehouseAdapter

/-- `WarehouseAdapter.execute_sql`, as a function of the configured
limits, the rows the backend cursor would yield for the query, the query
text and the optional caller row cap.  Raised `ValueError`s become
`Except.error`; a successful call returns the rows fetched by
`cursor.fetchmany(max_rows)` (markdown rendering elided). -/
def execute_sql {Row : Type} (limits : Limits) (backendRows : List Row)
    (query : String) (max_rows : Option Nat) : Except String (List Row) :=
  if !(pyStartswith (pyUpper (pyStrip query)) "SELECT") then
    .error "Only SELECT queries are allowed"
  else
    match dangerous.find? (fun kw => pyIn kw (pyUpper (pyStrip query))) with
    | some kw => .error ("Query contains forbidden keyword: " ++ kw)
    | none => .ok (backendRows.take (max_rows.getD limits.max_sql_result_rows))

/-- `WarehouseAdapter.sample_rows`: parses `schema.table`, defaults `n`
from the configured limits, applies the constant hard cap of 50, and
returns the rows of `SELECT TOP n *` (at most `n` of the table's rows). -/
def sample_rows {Row : Type} (limits : Limits) (backendRows : List Row)
    (schema_table : String) (n : Option Nat) : Except String (List Row) :=
  if (schema_table.data.splitOn '.').length ≠ 2 then
    .error "Table must be in format schema.table"
  else
    .ok (backendRows.take (min (n.getD limits.sample_rows) 50))

end WarehouseAdapter

/-- The statement rewrite inside `XMLAClient.execute_dax`: wrap the
query in `TOPN(max_rows, ...)` unless the uppercased query already
contains `TOPN` or `max_rows` is 0. -/
def xmla_execute_dax_statement (dax_query : String) (max_rows : Nat) : String :=
  let query_upper := pyUpper (pyStrip dax_query)
  if !(pyIn "TOPN" query_upper) && decide (max_rows > 0) then
    "EVALUATE TOPN(" ++ toString max_rows ++ ", " ++
      pyStrip (pyReplace dax_query "EVALUATE" "") ++ ")"
  else
    dax_query

/-- `SemanticModelAdapter.execute_dax`, as a function of the connection
state, limits, query and optional row cap; the value returned on
success is the DAX statement handed to `XMLAClient.execute_dax` for
transmission.  Raised exceptions become `Except.error`. -/
def SemanticModelAdapter.execute_dax (connected_model_id : Option String)
    (limits : Limits) (query : String) (max_rows : Option Nat) :
    Except String String :=
  if !(pyTruthyStr connected_model_id) then
    .error "Not connected to a model. Call connect() first."
  else
    let query_upper := pyUpper (pyStrip query)
    if !(pyStartswith query_upper "EVALUATE") then
      .error "DAX query must start with EVALUATE"
    else
      let max_rows := max_rows.getD limits.max_dax_rows
      .ok (xmla_execute_dax_statement query max_rows)

/-! ## `src/mcp_server.py`: warehouse tool branch -/

/-- The state of a `pyodbc` cursor after `cursor.execute(query)`:
column metadata (present for result-set statements), the pending rows,
and the affected row count. -/
structure PyCursor (Row : Type) where
  description : Option (List String)
  rows : List Row
  rowcount : Int

/-- The result dict returned by the server's `execute_sql` branch. -/
inductive McpSqlResult (Row : Type)
  | rowsResult (columns : List String) (rows : List Row)
  | commitResult (rows_affected : Int)
deriving DecidableEq

/-- `FabricMCPServer.handle_warehouse`, `execute_sql` branch: the query
is passed to `cursor.execute` unconditionally (no keyword check); the
first component records the SQL statements sent to the cursor, the
second the result dict (`fetchmany(100)` for result sets, commit
otherwise). -/
def mcp_handle_warehouse_execute_sql {Row : Type} (cursor : PyCursor Row)
    (query : String) : List String × McpSqlResult Row :=
  ([query],
   match cursor.description with
   | some cols => .rowsResult cols (cursor.rows.take 100)
   | none => .commitResult cursor.rowcount)

/-- A small configured `Limits` used to exhibit limit violations. -/
def smallLimits : Limits := { max_sql_result_rows := 2, sample_rows := 1 }

/-- Shape of a successful `execute_sql`: the rows are
`fetchmany(max_rows)` with the cap defaulted (not clamped) from the
configured limits. -/
theorem execute_sql_ok {Row : Type} (limits : Limits) (backendRows : List Row)
    (query : String) (mr : Option Nat) (rows : List Row)
    (h : WarehouseAdapter.execute_sql limits backendRows query mr = .ok rows) :
    rows = backendRows.take (mr.getD limits.max_sql_result_rows) := by
  unfold WarehouseAdapter.execute_sql at h
  split at h
  · exact Except.noConfusion h
  · split at h
    · exact Except.noConfusion h
    · injection h with h
      exact h.symm

/-- Shape of a successful `sample_rows`: at most
`min (n or limits.sample_rows) 50` rows. -/
theorem sample_rows_ok {Row : Type} (limits : Limits) (backendRows : List Row)
    (schema_table : String) (n : Option Nat) (rows : List Row)
    (h : WarehouseAdapter.sample_rows limits backendRows schema_table n = .ok rows) :
    rows = backendRows.take (min (n.getD limits.sample_rows) 50) := by
  unfold WarehouseAdapter.sample_rows at h
  split at h
  · exact Except.noConfusion h
  · injection h with h
    exact h.symm

/-- C3 counterexample: with `max_sql_result_rows = 2` configured, a
caller-supplied `max_rows = 3` makes `execute_sql` return 3 rows — the
configured limit is exceeded when the caller requests more. -/
theorem execute_sql_exceeds_configured_limit :
    WarehouseAdapter.execute_sql smallLimits [10, 20, 30] "SELECT c FROM t" (some 3) =
      .ok [10, 20, 30] ∧
    smallLimits.max_sql_result_rows < 3 := by
  constructor
  · rfl
  · decide

/-- C3 (amended): the configured limits act as defaults, not clamps.
With no caller cap, `execute_sql` returns at most
`max_sql_result_rows` rows and `sample_rows` at most
`min sample_rows 50`; a caller-supplied cap is used as given (only
`sample_rows` additionally clamps to the constant 50), so it may exceed
the configured limit.  `execute_dax` likewise defaults its cap to
`max_dax_rows` but only rewrites the statement sent to the engine
(`TOPN` wrapping); a query already containing `TOPN` passes through
with no cap at all. -/
theorem limits_are_defaults_not_clamps {Row : Type} (limits : Limits)
    (backendRows : List Row) (query schema_table : String) :
    (∀ rows, WarehouseAdapter.execute_sql limits backendRows query none = .ok rows →
       rows.length ≤ limits.max_sql_result_rows) ∧
    (∀ m rows, WarehouseAdapter.execute_sql limits backendRows query (some m) = .ok rows →
       rows.length ≤ m) ∧
    (∀ rows, WarehouseAdapter.sample_rows limits backendRows schema_table none = .ok rows →
       rows.length ≤ limits.sample_rows ∧ rows.length ≤ 50) ∧
    (∀ n rows, WarehouseAdapter.sample_rows limits backendRows schema_table (some n) = .ok rows →
       rows.length ≤ min n 50) ∧
    (∀ (cmid q : String), cmid ≠ "" →
       pyStartswith (pyUpper (pyStrip q)) "EVALUATE" = true →
       SemanticModelAdapter.execute_dax (some cmid) limits q none =
         .ok (xmla_execute_dax_statement q limits.max_dax_rows)) ∧
    (∀ (q : String) (mr : Nat), pyIn "TOPN" (pyUpper (pyStrip q)) = true →
       xmla_execute_dax_statement q mr = q) := by
  refine ⟨?_, ?_, ?_, ?_, ?_, ?_⟩
  · intro rows h
    rw [execute_sql_ok limits backendRows query none rows h]
    simp
  · intro m rows h
    rw [execute_sql_ok limits backendRows query (some m) rows h]
    simp
  · intro rows h
    have hr := sample_rows_ok limits backendRows schema_table none rows h
    have hlen : rows.length ≤ min limits.sample_rows 50 := by
      rw [hr]
      simp
    exact ⟨hlen.trans (Nat.min_le_left _ _), hlen.trans (Nat.min_le_right _ _)⟩
  · intro n rows h
    rw [sample_rows_ok limits backendRows schema_table (some n) rows h]
    simp
  · intro cmid q hc hq
    have ht : pyTruthyStr (some cmid) = true := by simp [pyTruthyStr, hc]
    simp [SemanticModelAdapter.execute_dax, ht, hq]
  · intro q mr hq
    simp [xmla_execute_dax_statement, hq]

theorem limits_are_defaults_not_clamps_witness :
    (WarehouseAdapter.execute_sql smallLimits [10, 20, 30] "SELECT c FROM t" none =
       .ok [10, 20] ∧ ([10, 20] : List Nat).length ≤ smallLimits.max_sql_result_rows) ∧
    (pyStartswith (pyUpper (pyStrip "EVALUATE T")) "EVALUATE" = true ∧
     SemanticModelAdapter.execute_dax (some "model-1") smallLimits "EVALUATE T" none =
       .ok (xmla_execute_dax_statement "EVALUATE T" smallLimits.max_dax_rows)) ∧
    (pyIn "TOPN" (pyUpper (pyStrip "EVALUATE TOPN(9999, T)")) = true ∧
     xmla_execute_dax_statement "EVALUATE TOPN(9999, T)" 5 = "EVALUATE TOPN(9999, T)") :=
  ⟨⟨by rfl,
    (limits_are_defaults_not_clamps smallLimits [10, 20, 30] "SELECT c FROM t" "s.t").1
      [10, 20] (by rfl)⟩,
   ⟨by decide,
    (limits_are_defaults_not_clamps smallLimits ([] : List Nat) "SELECT c FROM t" "s.t").2.2.2.2.1
      "model-1" "EVALUATE T" (by decide) (by decide)⟩,
   ⟨by decide,
    (limits_are_defaults_not_clamps smallLimits ([] : List Nat) "SELECT c FROM t" "s.t").2.2.2.2.2
      "EVALUATE TOPN(9999, T)" 5 (by decide)⟩⟩

/-- A concrete cursor with a one-row result set. -/
def unitCursor : PyCursor Unit := ⟨some ["c"], [()], 0⟩

/-- C4 counterexample: the MCP server's `execute_sql` tool branch sends
`"SELECT * FROM t; DROP TABLE t;"` — which contains the forbidden
keyword `DROP` — straight to `cursor.execute` with no keyword check, so
the denylist does not hold on every execute-sql path. -/
theorem mcp_execute_sql_executes_forbidden_keyword :
    (mcp_handle_warehouse_execute_sql unitCursor
      "SELECT * FROM t; DROP TABLE t;").1 = ["SELECT * FROM t; DROP TABLE t;"] ∧
    pyIn "DROP" (pyUpper (pyStrip "SELECT * FROM t; DROP TABLE t;")) = true := by
  constructor
  · rfl
  · decide

/-- C4 (amended): the *adapter's* `execute_sql` rejects, without
executing, every query containing a denylist keyword case-insensitively
(with a forbidden-keyword message when the query begins with SELECT,
with a SELECT-only message otherwise); it rejects
`"SELECT * FROM t; DROP TABLE t;"` and accepts and executes
`"SELECT * FROM t"`.  The MCP server's `execute_sql` tool branch,
however, performs no keyword check and executes every query as given. -/
theorem sql_denylist_adapter_only {Row : Type} (limits : Limits)
    (backendRows : List Row) (mr : Option Nat) :
    (∀ query kw, kw ∈ dangerous → pyIn kw (pyUpper (pyStrip query)) = true →
       ∃ msg, WarehouseAdapter.execute_sql limits backendRows query mr = .error msg) ∧
    (∀ query kw, kw ∈ dangerous → pyIn kw (pyUpper (pyStrip query)) = true →
       pyStartswith (pyUpper (pyStrip query)) "SELECT" = true →
       ∃ kw', kw' ∈ dangerous ∧ pyIn kw' (pyUpper (pyStrip query)) = true ∧
         WarehouseAdapter.execute_sql limits backendRows query mr =
           .error ("Query contains forbidden keyword: " ++ kw')) ∧
    (WarehouseAdapter.execute_sql limits backendRows "SELECT * FROM t; DROP TABLE t;" mr =
       .error "Query contains forbidden keyword: DROP") ∧
    (WarehouseAdapter.execute_sql limits backendRows "SELECT * FROM t" mr =
       .ok (backendRows.take (mr.getD limits.max_sql_result_rows))) ∧
    (∀ (cursor : PyCursor Row) (query : String),
       (mcp_handle_warehouse_execute_sql cursor query).1 = [query]) := by
  refine ⟨?_, ?_, ?_, ?_, ?_⟩
  · intro query kw hkw hin
    by_cases hsel : pyStartswith (pyUpper (pyStrip query)) "SELECT" = true
    · cases hf : dangerous.find? (fun k => pyIn k (pyUpper (pyStrip query))) with
      | some kw' =>
        refine ⟨"Query contains forbidden keyword: " ++ kw', ?_⟩
        simp [WarehouseAdapter.execute_sql, hsel, hf]
      | none =>
        exact absurd hin (by simpa using List.find?_eq_none.mp hf kw hkw)
    · refine ⟨"Only SELECT queries are allowed", ?_⟩
      simp only [Bool.not_eq_true] at hsel
      simp [WarehouseAdapter.execute_sql, hsel]
  · intro query kw hkw hin hsel
    cases hf : dangerous.find? (fun k => pyIn k (pyUpper (pyStrip query))) with
    | some kw' =>
      refine ⟨kw', List.mem_of_find?_eq_some hf,
        by simpa using List.find?_some hf, ?_⟩
      simp [WarehouseAdapter.execute_sql, hsel, hf]
    | none =>
      exact absurd hin (by simpa using List.find?_eq_none.mp hf kw hkw)
  · rfl
  · rfl
  · intro cursor query
    rfl

theorem sql_denylist_adapter_only_witness :
    ("DROP" ∈ dangerous ∧
     pyIn "DROP" (pyUpper (pyStrip "DROP TABLE t")) = true ∧
     ∃ msg, WarehouseAdapter.execute_sql smallLimits ([] : List Nat) "DROP TABLE t" none =
       .error msg) ∧
    (pyStartswith (pyUpper (pyStrip "SELECT * FROM t; DROP TABLE t;")) "SELECT" = true ∧
     ∃ kw', kw' ∈ dangerous ∧
       pyIn kw' (pyUpper (pyStrip "SELECT * FROM t; DROP TABLE t;")) = true ∧
       WarehouseAdapter.execute_sql smallLimits ([] : List Nat)
           "SELECT * FROM t; DROP TABLE t;" none =
         .error ("Query contains forbidden keyword: " ++ kw')) :=
  ⟨⟨by decide, by decide,
    (sql_denylist_adapter_only smallLimits ([] : List Nat) none).1
      "DROP TABLE t" "DROP" (by decide) (by decide)⟩,
   ⟨by decide,
    (sql_denylist_adapter_only smallLimits ([] : List Nat) none).2.1
      "SELECT * FROM t; DROP TABLE t;" "DROP" (by decide) (by decide) (by decide)⟩⟩

/-! ## `src/mcp_server.py`: semantic `execute_dax` branch, and the
EVALUATE policy comparison (C5) -/

/-- Observable outcome of the server's `execute_dax` tool branch:
either a structured `{error}` dict is returned without contacting the
engine, or a DAX statement is POSTed to `executeQueries`. -/
inductive McpDaxOutcome
  | errorResult (msg : String)
  | sent (statement : String)
deriving DecidableEq, Repr

/-- `FabricMCPServer.handle_semantic`, `execute_dax` branch: if no
dataset is connected a structured error dict is returned; otherwise the
query (defaulted to `""`) is prepended with `EVALUATE ` whenever its
trimmed uppercase form does not start with `EVALUATE`, and POSTed. -/
def mcp_handle_semantic_execute_dax (dataset_id : Option String)
    (query : Option String) : McpDaxOutcome :=
  if !(pyTruthyStr dataset_id) then
    .errorResult "No dataset connected. Use connect_dataset first."
  else
    if !(pyStartswith (pyUpper (pyStrip (query.getD ""))) "EVALUATE") then
      .sent ("EVALUATE " ++ query.getD "")
    else
      .sent (query.getD "")

/-- The claim of a single consistent EVALUATE policy, stated over the
two DAX execution paths with a live session: either every path rejects
a query that (after trimming) does not begin with `EVALUATE`
case-insensitively, or every path transparently prepends `EVALUATE `. -/
def daxPolicyConsistent : Prop :=
  (∀ q : String, pyStartswith (pyUpper (pyStrip q)) "EVALUATE" = false →
     (∃ msg, mcp_handle_semantic_execute_dax (some "ds-1") (some q) = .errorResult msg) ∧
     (∃ msg, SemanticModelAdapter.execute_dax (some "model-1") {} q none = .error msg))
  ∨
  (∀ q : String, pyStartswith (pyUpper (pyStrip q)) "EVALUATE" = false →
     mcp_handle_semantic_execute_dax (some "ds-1") (some q) = .sent ("EVALUATE " ++ q) ∧
     (∃ st, SemanticModelAdapter.execute_dax (some "model-1") {} q none = .ok st))

/-- C5 counterexample: no single EVALUATE policy is applied by both DAX
paths — on `"TOPN(5, Sales)"` the server branch prepends and proceeds
while the semantic adapter rejects. -/
theorem dax_policy_not_consistent : ¬ daxPolicyConsistent := by
  intro h
  cases h with
  | inl h =>
    obtain ⟨⟨msg, hm⟩, -⟩ := h "TOPN(5, Sales)" (by decide)
    rw [show mcp_handle_semantic_execute_dax (some "ds-1") (some "TOPN(5, Sales)") =
          .sent "EVALUATE TOPN(5, Sales)" from rfl] at hm
    exact McpDaxOutcome.noConfusion hm
  | inr h =>
    obtain ⟨-, st, hst⟩ := h "TOPN(5, Sales)" (by decide)
    rw [show SemanticModelAdapter.execute_dax (some "model-1") {} "TOPN(5, Sales)" none =
          .error "DAX query must start with EVALUATE" from rfl] at hst
    exact Except.noConfusion hst

/-- C5 (amended): the two DAX paths diverge on every query that does
not begin with `EVALUATE` after trimming: the server's tool branch
transparently prepends `EVALUATE ` and proceeds, while the semantic
adapter rejects the query with a `ValueError`. -/
theorem dax_policy_divergence (dataset_id model_id : String) (limits : Limits)
    (max_rows : Option Nat) (q : String)
    (hq : pyStartswith (pyUpper (pyStrip q)) "EVALUATE" = false)
    (hds : dataset_id ≠ "") (hmid : model_id ≠ "") :
    mcp_handle_semantic_execute_dax (some dataset_id) (some q) =
      .sent ("EVALUATE " ++ q) ∧
    SemanticModelAdapter.execute_dax (some model_id) limits q max_rows =
      .error "DAX query must start with EVALUATE" := by
  have h1 : pyTruthyStr (some dataset_id) = true := by simp [pyTruthyStr, hds]
  have h2 : pyTruthyStr (some model_id) = true := by simp [pyTruthyStr, hmid]
  constructor
  · simp [mcp_handle_semantic_execute_dax, h1, hq]
  · simp [SemanticModelAdapter.execute_dax, h2, hq]

theorem dax_policy_divergence_witness :
    pyStartswith (pyUpper (pyStrip "TOPN(5, Sales)")) "EVALUATE" = false ∧
    mcp_handle_semantic_execute_dax (some "ds-1") (some "TOPN(5, Sales)") =
      .sent ("EVALUATE " ++ "TOPN(5, Sales)") ∧
    SemanticModelAdapter.execute_dax (some "model-1") {} "TOPN(5, Sales)" none =
      .error "DAX query must start with EVALUATE" :=
  ⟨by decide,
   dax_policy_divergence "ds-1" "model-1" {} none "TOPN(5, Sales)"
     (by decide) (by decide) (by decide)⟩

/-! ## `src/semantic_adapter.py`: measure write-back (C8) -/

/-- Placeholder resolution done before execution:
`tmsl_payload.replace("<database>", db_name)`.  In every generated
command the placeholder occurs exactly as the `object.database` field. -/
def TmslCommand.resolveDatabase (c : TmslCommand) (db : String) : TmslCommand :=
  match c with
  | .createOrReplaceMeasure d t m p =>
      .createOrReplaceMeasure (if d = "<database>" then db else d) t m p
  | .alterMeasure d m p => .alterMeasure (if d = "<database>" then db else d) m p
  | .deleteMeasure d t m => .deleteMeasure (if d = "<database>" then db else d) t m

/-- The result dict built by `upsert_measure` / `delete_measure`. -/
structure MeasureOpResult where
  operation : String
  measure_name : String
  dry_run : Bool
  tmsl : TmslCommand
  status : String
  message : String
  details : Option String := none
deriving DecidableEq, Repr

/-- `SemanticModelAdapter.upsert_measure`, as a function of the
connection state and an execution transport
(`XMLAClient.execute_tmsl` on the resolved command; `Except.error`
models a raised transport exception).  The guard
`if not self._connected_model_id:` rejects by Python truthiness, so the
empty-string id raises just like `None`.  The second component of a
successful return lists the commands actually handed to the transport. -/
def SemanticModelAdapter.upsert_measure
    (connected_model_id connected_model_name : Option String)
    (transport : TmslCommand → Except String TmslExecResult)
    (name formula : String) (table description format_string : Option String)
    (dry_run : Bool) : Except String (MeasureOpResult × List TmslCommand) :=
  if !(pyTruthyStr connected_model_id) then
    .error "Not connected to a model. Call connect() first."
  else
    let tmsl_payload := generate_measure_upsert name formula table description
      format_string none
    if dry_run then
      .ok ({ operation := "upsert_measure"
             measure_name := name
             dry_run := dry_run
             tmsl := tmsl_payload
             status := "preview"
             message := "Dry run - no changes made. Set dry_run=False to apply." }, [])
    else
      let db_name := if pyTruthyStr connected_model_name then
        connected_model_name.getD "" else connected_model_id.getD ""
      let final_tmsl := tmsl_payload.resolveDatabase db_name
      match transport final_tmsl with
      | .ok er =>
        match er.message with
        | some m =>
          .ok ({ operation := "upsert_measure", measure_name := name
                 dry_run := dry_run, tmsl := tmsl_payload
                 status := er.status, message := m
                 details := er.details }, [final_tmsl])
        | none =>
          -- `execution_result["message"]` raises KeyError, caught below
          .ok ({ operation := "upsert_measure", measure_name := name
                 dry_run := dry_run, tmsl := tmsl_payload
                 status := "error", message := "'message'" }, [final_tmsl])
      | .error e =>
        .ok ({ operation := "upsert_measure", measure_name := name
               dry_run := dry_run, tmsl := tmsl_payload
               status := "error", message := e }, [final_tmsl])

/-- `SemanticModelAdapter.delete_measure` (same transport and truthy
connection-guard conventions as `upsert_measure`; note the source calls
`generate_measure_delete(name)` with no table). -/
def SemanticModelAdapter.delete_measure
    (connected_model_id connected_model_name : Option String)
    (transport : TmslCommand → Except String TmslExecResult)
    (name : String) (dry_run : Bool) :
    Except String (MeasureOpResult × List TmslCommand) :=
  if !(pyTruthyStr connected_model_id) then
    .error "Not connected to a model. Call connect() first."
  else
    let tmsl_payload := generate_measure_delete name none
    if dry_run then
      .ok ({ operation := "delete_measure"
             measure_name := name
             dry_run := dry_run
             tmsl := tmsl_payload
             status := "preview"
             message := "Dry run - no changes made. Set dry_run=False to apply." }, [])
    else
      let db_name := if pyTruthyStr connected_model_name then
        connected_model_name.getD "" else connected_model_id.getD ""
      let final_tmsl := tmsl_payload.resolveDatabase db_name
      match transport final_tmsl with
      | .ok er =>
        match er.message with
        | some m =>
          .ok ({ operation := "delete_measure", measure_name := name
                 dry_run := dry_run, tmsl := tmsl_payload
                 status := er.status, message := m
                 details := er.details }, [final_tmsl])
        | none =>
          .ok ({ operation := "delete_measure", measure_name := name
                 dry_run := dry_run, tmsl := tmsl_payload
                 status := "error", message := "'message'" }, [final_tmsl])
      | .error e =>
        .ok ({ operation := "delete_measure", measure_name := name
               dry_run := dry_run, tmsl := tmsl_payload
               status := "error", message := e }, [final_tmsl])

/-- C8: with a live connection (a truthy model id) and `dry_run = true`,
both `upsert_measure` and `delete_measure` return a result whose status
is `"preview"` carrying the generated TMSL payload, and hand nothing to
the execution transport (the sent-command log is empty); `"preview"` is
distinct from both `"success"` and `"error"`. -/
theorem dry_run_is_preview_without_send
    (mid : String) (hmid : mid ≠ "") (cname : Option String)
    (transport : TmslCommand → Except String TmslExecResult)
    (name formula : String) (table description format_string : Option String) :
    (∃ r, SemanticModelAdapter.upsert_measure (some mid) cname transport
        name formula table description format_string true = .ok (r, []) ∧
      r.status = "preview" ∧
      r.tmsl = generate_measure_upsert name formula table description
        format_string none ∧
      r.dry_run = true) ∧
    (∃ r, SemanticModelAdapter.delete_measure (some mid) cname transport
        name true = .ok (r, []) ∧
      r.status = "preview" ∧
      r.tmsl = generate_measure_delete name none ∧
      r.dry_run = true) ∧
    ("preview" : String) ≠ "success" ∧ ("preview" : String) ≠ "error" := by
  have ht : pyTruthyStr (some mid) = true := by simp [pyTruthyStr, hmid]
  refine ⟨⟨{ operation := "upsert_measure"
             measure_name := name
             dry_run := true
             tmsl := generate_measure_upsert name formula table description
               format_string none
             status := "preview"
             message := "Dry run - no changes made. Set dry_run=False to apply." },
            ?_, rfl, rfl, rfl⟩,
          ⟨{ operation := "delete_measure"
             measure_name := name
             dry_run := true
             tmsl := generate_measure_delete name none
             status := "preview"
             message := "Dry run - no changes made. Set dry_run=False to apply." },
            ?_, rfl, rfl, rfl⟩,
          by decide, by decide⟩
  · simp [SemanticModelAdapter.upsert_measure, ht]
  · simp [SemanticModelAdapter.delete_measure, ht]

/-- A concrete transport answering every command with success (never
consulted under dry run). -/
def constTransport : TmslCommand → Except String TmslExecResult :=
  fun _ => .ok { status := "success"
                 message := some "TMSL command executed successfully" }

theorem dry_run_is_preview_without_send_witness :
    ("model-1" : String) ≠ "" ∧
    ((∃ r, SemanticModelAdapter.upsert_measure (some "model-1") (some "Mdl")
        constTransport "Total Sales" "SUM(Sales[Amount])" (some "Sales")
        none none true = .ok (r, []) ∧
      r.status = "preview" ∧
      r.tmsl = generate_measure_upsert "Total Sales" "SUM(Sales[Amount])"
        (some "Sales") none none none ∧
      r.dry_run = true) ∧
    (∃ r, SemanticModelAdapter.delete_measure (some "model-1") (some "Mdl")
        constTransport "Total Sales" true = .ok (r, []) ∧
      r.status = "preview" ∧
      r.tmsl = generate_measure_delete "Total Sales" none ∧
      r.dry_run = true) ∧
    ("preview" : String) ≠ "success" ∧ ("preview" : String) ≠ "error") :=
  ⟨by decide,
   dry_run_is_preview_without_send "model-1" (by decide) (some "Mdl")
     constTransport "Total Sales" "SUM(Sales[Amount])" (some "Sales") none none⟩

/-! ## `src/mcp_server.py`: the stdio JSON-RPC loop (`FabricMCPServer.run`) -/

/-- A JSON-RPC `id` value as this server consumes it (numbers or
strings; `"id": null` behaves like an absent field under `msg.get`). -/
inductive JsonId
  | num (n : Int)
  | str (s : String)
deriving DecidableEq, Repr

/-- Python truthiness of an id (`if mid:`): 0 and `""` are falsy. -/
def JsonId.pyTruthy : JsonId → Bool
  | .num n => n != 0
  | .str s => s != ""

/-- The tool-call arguments dict, opaque to the loop. -/
def ToolArgs := List (String × String)

/-- The `params` member of a parsed message; `name` / `arguments` may be
absent. -/
structure RpcParams where
  name : Option String := none
  arguments : Option ToolArgs := none

/-- A parsed JSON-RPC message as the loop reads it with `msg.get`. -/
structure RpcMsg where
  id : Option JsonId := none
  method : Option String := none
  params : Option RpcParams := none

/-- The payload of a successful response. -/
inductive RpcResult
  | initResult
  | toolsList (tools : List String)
  | content (text : String)
deriving DecidableEq, Repr

/-- A JSON-RPC response line printed to stdout. -/
inductive RpcResponse
  | result (id : Option JsonId) (payload : RpcResult)
  | error (id : Option JsonId) (code : Int) (message : String)
deriving DecidableEq, Repr

/-- The `id` a response carries. -/
def RpcResponse.idOf : RpcResponse → Option JsonId
  | .result i _ => i
  | .error i _ _ => i

/-- One iteration of the loop body on a parsed message.  `handleTool`
abstracts `FabricMCPServer.handle_tool` (tool dispatch including any
network round-trip, which never raises) returning the updated server
state and the JSON-serialized tool result; `tools` is the catalog
computed once before the loop.  The returned list holds the responses
printed for this message; a `tools/call` lacking `params` or
`params["name"]` raises `KeyError`, which the loop's blanket handler
swallows, printing nothing. -/
def processMsg {σ : Type} (handleTool : σ → String → ToolArgs → σ × String)
    (tools : List String) (s : σ) (m : RpcMsg) : σ × List RpcResponse :=
  if m.method = some "initialize" then
    (s, [.result m.id .initResult])
  else if m.method = some "tools/list" then
    (s, [.result m.id (.toolsList tools)])
  else if m.method = some "tools/call" then
    match m.params with
    | none => (s, [])
    | some p =>
      match p.name with
      | none => (s, [])
      | some nm =>
        let r := handleTool s nm (p.arguments.getD [])
        (r.1, [.result m.id (.content r.2)])
  else if m.method = some "notifications/initialized" then
    (s, [])
  else
    if (m.id.map JsonId.pyTruthy).getD false then
      (s, [.error m.id (-32601)
        ("Method not found: " ++
          (match m.method with | some mth => mth | none => "None"))])
    else
      (s, [])

/-- One input line: either invalid JSON (caught `json.JSONDecodeError`)
or a parsed message. -/
inductive InputLine
  | malformed
  | msg (m : RpcMsg)

/-- One loop iteration on a raw line. -/
def processLine {σ : Type} (handleTool : σ → String → ToolArgs → σ × String)
    (tools : List String) (s : σ) : InputLine → σ × List RpcResponse
  | .malformed => (s, [])
  | .msg m => processMsg handleTool tools s m

/-- The whole stdio loop over a list of input lines, collecting every
response printed, in order. -/
def runLoop {σ : Type} (handleTool : σ → String → ToolArgs → σ × String)
    (tools : List String) (s : σ) : List InputLine → σ × List RpcResponse
  | [] => (s, [])
  | line :: rest =>
    let step := processLine handleTool tools s line
    let tail := runLoop handleTool tools step.1 rest
    (tail.1, step.2 ++ tail.2)

/-- A trivial concrete tool dispatcher used to instantiate the loop. -/
def unitHandleTool : Unit → String → ToolArgs → Unit × String :=
  fun s _ _ => (s, "\x7b\x7d")

/-- C2 counterexample: a parseable request (it carries `id` 1) with the
supported method `tools/call` but no `params` member receives no
response at all — the `KeyError` is swallowed by the loop's blanket
handler — so "every request with a supported method gets exactly one
response" fails. -/
theorem tools_call_without_params_gets_no_response :
    (processLine unitHandleTool ["execute_sql"] ()
      (.msg { id := some (.num 1), method := some "tools/call" })).2 = [] := by
  rfl

/-- C2 (amended): every request carrying an `id` with method
`initialize` or `tools/list`, and every `tools/call` request whose
`params` carries a `name`, receives exactly one response echoing the
request id; `notifications/initialized` and unparseable lines produce
no output and leave the server state unchanged, so the request after a
malformed line is answered exactly as if the malformed line had never
been read. -/
theorem protocol_loop_response_discipline {σ : Type}
    (handleTool : σ → String → ToolArgs → σ × String)
    (tools : List String) (s : σ) :
    (∀ (m : RpcMsg) (i : JsonId), m.id = some i →
       (m.method = some "initialize" ∨ m.method = some "tools/list") →
       ∃ r, (processMsg handleTool tools s m).2 = [r] ∧ r.idOf = some i) ∧
    (∀ (m : RpcMsg) (i : JsonId) (p : RpcParams) (nm : String),
       m.id = some i → m.method = some "tools/call" →
       m.params = some p → p.name = some nm →
       ∃ r, (processMsg handleTool tools s m).2 = [r] ∧ r.idOf = some i) ∧
    (∀ m : RpcMsg, m.method = some "notifications/initialized" →
       (processMsg handleTool tools s m).2 = []) ∧
    (processLine handleTool tools s .malformed = (s, [])) ∧
    (∀ rest, runLoop handleTool tools s (.malformed :: rest) =
       runLoop handleTool tools s rest) := by
  refine ⟨?_, ?_, ?_, rfl, ?_⟩
  · intro m i hid hm
    cases hm with
    | inl h =>
      refine ⟨.result m.id .initResult, by simp [processMsg, h], ?_⟩
      simp [RpcResponse.idOf, hid]
    | inr h =>
      refine ⟨.result m.id (.toolsList tools), by simp [processMsg, h], ?_⟩
      simp [RpcResponse.idOf, hid]
  · intro m i p nm hid hm hp hnm
    refine ⟨.result m.id (.content (handleTool s nm (p.arguments.getD [])).2),
      by simp [processMsg, hm, hp, hnm], ?_⟩
    simp [RpcResponse.idOf, hid]
  · intro m hm
    simp [processMsg, hm]
  · intro rest
    simp [runLoop, processLine]

theorem protocol_loop_response_discipline_witness :
    (({ id := some (.num 1), method := some "initialize" } : RpcMsg).id =
       some (.num 1) ∧
     ∃ r, (processMsg unitHandleTool ["list_workspaces"] ()
        { id := some (.num 1), method := some "initialize" }).2 = [r] ∧
       r.idOf = some (.num 1)) ∧
    (∃ r, (processMsg unitHandleTool ["list_workspaces"] ()
        { id := some (.num 2), method := some "tools/call"
          params := some { name := some "list_workspaces" } }).2 = [r] ∧
       r.idOf = some (.num 2)) ∧
    ((processMsg unitHandleTool ["list_workspaces"] ()
        { method := some "notifications/initialized" }).2 = []) ∧
    (runLoop unitHandleTool ["list_workspaces"] ()
        [.malformed, .msg { id := some (.num 3), method := some "tools/list" }] =
      runLoop unitHandleTool ["list_workspaces"] ()
        [.msg { id := some (.num 3), method := some "tools/list" }]) :=
  ⟨⟨rfl,
    (protocol_loop_response_discipline unitHandleTool
        ["list_workspaces"] ()).1
      { id := some (.num 1), method := some "initialize" } (.num 1) rfl (.inl rfl)⟩,
   (protocol_loop_response_discipline unitHandleTool
       ["list_workspaces"] ()).2.1
     { id := some (.num 2), method := some "tools/call"
       params := some { name := some "list_workspaces" } }
     (.num 2) { name := some "list_workspaces" } "list_workspaces" rfl rfl rfl rfl,
   (protocol_loop_response_discipline unitHandleTool
       ["list_workspaces"] ()).2.2.1
     { method := some "notifications/initialized" } rfl,
   (protocol_loop_response_discipline unitHandleTool
       ["list_workspaces"] ()).2.2.2.2
     [.msg { id := some (.num 3), method := some "tools/list" }]⟩

/-- C6 counterexample: the message `{"id": 0, "method": "nosuch/method"}`
carries an `id` field and an unknown method, yet receives no response:
the guard `if mid:` treats the id 0 as falsy. -/
theorem unknown_method_id_zero_gets_no_response :
    (processMsg unitHandleTool [] ()
      { id := some (.num 0), method := some "nosuch/method" }).2 = [] := by
  rfl

/-- C6 (amended): for a parseable message whose method is none of the
four supported ones, exactly one error response with code -32601 whose
message embeds the literal method name is emitted if and only if the
message carries a *truthy* `id` (non-zero number or non-empty string);
messages with no `id`, or with a falsy `id` such as 0 or `""`, receive
nothing. -/
theorem unknown_method_error_iff_truthy_id {σ : Type}
    (handleTool : σ → String → ToolArgs → σ × String)
    (tools : List String) (s : σ) (m : RpcMsg) (mth : String)
    (hm : m.method = some mth)
    (hunknown : mth ∉ ["initialize", "tools/list", "tools/call",
      "notifications/initialized"]) :
    (∀ i : JsonId, m.id = some i → i.pyTruthy = true →
       (processMsg handleTool tools s m).2 =
         [.error (some i) (-32601) ("Method not found: " ++ mth)]) ∧
    (m.id = none → (processMsg handleTool tools s m).2 = []) ∧
    (∀ i : JsonId, m.id = some i → i.pyTruthy = false →
       (processMsg handleTool tools s m).2 = []) := by
  simp only [List.mem_cons, List.mem_singleton, not_or] at hunknown
  obtain ⟨h1, h2, h3, h4, -⟩ := hunknown
  refine ⟨?_, ?_, ?_⟩
  · intro i hid htr
    simp [processMsg, hm, hid, htr, h1, h2, h3, h4]
  · intro hid
    simp [processMsg, hm, hid, h1, h2, h3, h4]
  · intro i hid htr
    simp [processMsg, hm, hid, htr, h1, h2, h3, h4]

theorem unknown_method_error_iff_truthy_id_witness :
    ((processMsg unitHandleTool [] ()
        { id := some (.num 7), method := some "foo/bar" }).2 =
      [.error (some (.num 7)) (-32601) ("Method not found: " ++ "foo/bar")]) ∧
    ((processMsg unitHandleTool [] ()
        { method := some "foo/bar" }).2 = []) ∧
    ((processMsg unitHandleTool [] ()
        { id := some (.str ""), method := some "foo/bar" }).2 = []) :=
  ⟨(unknown_method_error_iff_truthy_id unitHandleTool [] ()
      { id := some (.num 7), method := some "foo/bar" } "foo/bar" rfl
      (by decide)).1 (.num 7) rfl (by decide),
   (unknown_method_error_iff_truthy_id unitHandleTool [] ()
      { method := some "foo/bar" } "foo/bar" rfl (by decide)).2.1 rfl,
   (unknown_method_error_iff_truthy_id unitHandleTool [] ()
      { id := some (.str ""), method := some "foo/bar" } "foo/bar" rfl
      (by decide)).2.2 (.str "") rfl (by decide)⟩

end Fabric
